import Mathlib

/-!
Shallow embedding of the website-generator pipeline
(`simple_models.py`, `scraper_ml.py`, `generator_with_ml.py`,
`prepare_training_data.py`, `train_models.py`) and proofs of the
specification's testable properties.

Python dictionaries with string keys are modelled as association lists
`List (String × _)` in insertion order, matching Python dict iteration
order; fallible operations (`max()` on an empty sequence, division by
zero, indexing `[0]` into an empty list) are modelled with `Option`,
`none` standing for a raised exception.
-/

set_option autoImplicit false
set_option linter.unusedVariables false

namespace WebsiteGen

/-- Python `scores[k] = scores.get(k, 0) + v`: update the entry in place
(keeping its dict position) or append a fresh key at the end. -/
def updateAssoc : List (String × Nat) → String → Nat → List (String × Nat)
  | [], k, v => [(k, v)]
  | (k', v') :: rest, k, v =>
    if k' = k then (k', v' + v) :: rest else (k', v') :: updateAssoc rest k v

/-- Python `max(items, key=lambda x: x[1])`: first maximal element in
iteration order (later elements replace only on strictly greater value);
`none` models the `ValueError` raised on an empty sequence. -/
def maxByValue : List (String × Nat) → Option (String × Nat)
  | [] => none
  | x :: xs => some (xs.foldl (fun best p => if p.2 > best.2 then p else best) x)

/-- One exemplar of `classifier_data`: the per-site training record with
its boolean section flags, as consumed by `SimpleMLModels.classify_site`. -/
structure Exemplar where
  siteType : String
  style : String
  hasNavbar : Bool
  hasHero : Bool
  hasFeatures : Bool
  hasFooter : Bool
deriving DecidableEq, Repr

/-- A FeatureRecord in the fixed schema of `prepare_training_data.py`:
the four boolean section flags read by the frequency classifier plus the
numeric attributes it ignores. -/
structure Features where
  hasNavbar : Bool
  hasHero : Bool
  hasFeatures : Bool
  hasFooter : Bool
  numComponents : Nat
  titleLength : Nat
deriving DecidableEq, Repr

/-- The similarity count of `classify_site`: number of the four boolean
attributes on which the feature record and the exemplar agree. -/
def simScore (f : Features) (e : Exemplar) : Nat :=
  (if f.hasNavbar = e.hasNavbar then 1 else 0) +
  (if f.hasHero = e.hasHero then 1 else 0) +
  (if f.hasFeatures = e.hasFeatures then 1 else 0) +
  (if f.hasFooter = e.hasFooter then 1 else 0)

/-- The `scores` dict of `classify_site`: per-site_type accumulated
similarity totals, keys in first-encountered order. -/
def scoresOf (data : List Exemplar) (f : Features) : List (String × Nat) :=
  data.foldl (fun acc e => updateAssoc acc e.siteType (simScore f e)) []

/-- The `styles` dict of `classify_site`: style frequency among exemplars
sharing the winning site type. -/
def styleCounts (data : List Exemplar) (best : String) : List (String × Nat) :=
  data.foldl (fun acc e => if e.siteType = best then updateAssoc acc e.style 1 else acc) []

/-- Line 54 of `simple_models.py`: most common style for the winning site
type, `"minimal_clean"` when no exemplar shares it. -/
def bestStyleFor (data : List Exemplar) (best : String) : String :=
  match maxByValue (styleCounts data best) with
  | some p => p.1
  | none => "minimal_clean"

/-- The classification triple returned by the classifiers. -/
structure ClassResult where
  siteType : String
  style : String
  confidence : ℚ
deriving DecidableEq, Repr

/-- Python `sum(scores.values())`: the confidence denominator of
`classify_site`. -/
def totalScore (data : List Exemplar) (f : Features) : Nat :=
  ((scoresOf data f).map (·.2)).sum

/-- Embedding of `SimpleMLModels.classify_site`.  `none` models a raised exception:
`max()` on an empty `scores` dict (empty exemplar list), or the
`ZeroDivisionError` when `sum(scores.values())` is `0`. -/
def classifySite (data : List Exemplar) (f : Features) : Option ClassResult :=
  match maxByValue (scoresOf data f) with
  | none => none
  | some (best, bestScore) =>
    if totalScore data f = 0 then none
    else some { siteType := best, style := bestStyleFor data best,
                confidence := (bestScore : ℚ) / (totalScore data f : ℚ) }

/-- Embedding of `SimpleMLModels.generate_layout`: lookup of the site type in the
layout-template table, returning the template at index 0; `none` models
the `IndexError` when the stored template list is empty; the fixed
default sequence is returned for an absent site type.  The `style`
argument is accepted and ignored, as in the source. -/
def generateLayout (templates : List (String × List (List String)))
    (siteType style : String) : Option (List String) :=
  match templates.lookup siteType with
  | some ts => ts.head?
  | none => some ["navbar", "hero", "features", "footer"]

/-- The `key` string of `select_variant`:
`f"{site_type}_{style}_{component_type}"`. -/
def variantKey (siteType style compType : String) : String :=
  siteType ++ "_" ++ style ++ "_" ++ compType

/-- Embedding of `SimpleMLModels.select_variant`: exact lookup of the key in the
variant table, then the hard per-kind defaults. -/
def selectVariant (table : List (String × String))
    (siteType style compType : String) : String :=
  match table.lookup (variantKey siteType style compType) with
  | some v => v
  | none =>
    if compType = "navbar" then "solid"
    else if compType = "hero" then "centered_cta"
    else if compType = "features" then "grid_3col"
    else if compType = "footer" then "minimal"
    else "default"

/-- A section descriptor of the DSL: `{type, position, variant}`. -/
structure SectionDescriptor where
  kind : String
  position : Nat
  variant : String
deriving DecidableEq, Repr

/-- The WebsiteDSL assembled by `generate_complete_dsl`. -/
structure WebsiteDSL where
  siteType : String
  style : String
  confidence : ℚ
  sections : List SectionDescriptor
deriving DecidableEq, Repr

/-- The Frequency Store as loaded by `SimpleMLModels.load_training_data`. -/
structure Store where
  classifierData : List Exemplar
  layoutTemplates : List (String × List (List String))
  componentVariants : List (String × String)

/-- Substring scan for Python `w in s`: `w` is a prefix of some suffix
of `s`. -/
def containsSub : List Char → List Char → Bool
  | p, [] => p.isEmpty
  | p, c :: rest => p.isPrefixOf (c :: rest) || containsSub p rest

/-- Python `w in s` on strings: substring containment. -/
def containsWord (s w : String) : Bool := containsSub w.data s.data

/-- Python `s.lower()` (ASCII). -/
def pyLower (s : String) : String := String.mk (s.data.map Char.toLower)

/-- The feature dict built at the top of `generate_complete_dsl`:
navbar/footer always assumed, hero/features from keyword hits on the
lowercased description; the numeric attributes are not populated there. -/
def extractFeaturesFromDesc (desc : String) : Features :=
  let descLower := pyLower desc
  { hasNavbar := true
    hasHero := containsWord descLower "hero" || containsWord descLower "landing" ||
      containsWord descLower "main"
    hasFeatures := containsWord descLower "features" || containsWord descLower "services" ||
      containsWord descLower "benefits"
    hasFooter := true
    numComponents := 0
    titleLength := 0 }

/-- Embedding of `SimpleMLModels.generate_complete_dsl`: classify, pick a layout, and
assemble the DSL with `position` set by `enumerate`. -/
def generateCompleteDsl (store : Store) (desc : String) : Option WebsiteDSL :=
  match classifySite store.classifierData (extractFeaturesFromDesc desc) with
  | none => none
  | some cls =>
    match generateLayout store.layoutTemplates cls.siteType cls.style with
    | none => none
    | some sections =>
      some { siteType := cls.siteType, style := cls.style, confidence := cls.confidence,
             sections := sections.enum.map (fun p =>
               { kind := p.2, position := p.1,
                 variant := selectVariant store.componentVariants cls.siteType cls.style p.2 }) }

/-! ### Corpus Aggregator: layout-template table (`train_models.train_layout_generator`) -/

/-- Python `s.split(',')` on the comma-joined section string: always at
least one (possibly empty) field, so `''. split(',') = ['']`. -/
def splitCommaAux : List Char → List (List Char)
  | [] => [[]]
  | c :: rest =>
    match splitCommaAux rest with
    | [] => [[]]
    | w :: ws => if c = ',' then [] :: w :: ws else (c :: w) :: ws

/-- Python `layout.split(',')` lifted to `String`. -/
def pySplitComma (s : String) : List String :=
  (splitCommaAux s.data).map (fun l => String.mk l)

/-- Distinct elements in first-seen order (pandas `unique`). -/
def firstSeen (l : List String) : List String :=
  l.foldl (fun acc x => if acc.contains x then acc else acc ++ [x]) []

/-- Stable descending insertion for the count ranking: an element goes
before the first strictly smaller count, so earlier-seen layouts keep
priority on ties. -/
def insertDesc (p : String × Nat) : List (String × Nat) → List (String × Nat)
  | [] => [p]
  | q :: rest => if p.2 ≥ q.2 then p :: q :: rest else q :: insertDesc p rest

/-- Pandas `value_counts()`-style ranking: count descending, ties by
first-seen order. -/
def sortDesc (l : List (String × Nat)) : List (String × Nat) :=
  l.foldr insertDesc []

/-- Occurrence counts of the section strings of one site type, keys in
first-seen order. -/
def layoutCountsFor (rows : List (String × String)) (siteType : String) :
    List (String × Nat) :=
  ((rows.filter (fun r => r.1 = siteType)).map (·.2)).foldl
    (fun acc v => updateAssoc acc v 1) []

/-- Top-3 most frequent comma-joined layouts of one site type, split back
into section-kind lists. -/
def topLayoutsFor (rows : List (String × String)) (siteType : String) :
    List (List String) :=
  ((sortDesc (layoutCountsFor rows siteType)).take 3).map (fun p => pySplitComma p.1)

/-- Embedding of `train_models.train_layout_generator`: from rows of
(site_type, comma-joined sections) build the site_type → top-3 layout
template table. -/
def buildLayoutTemplates (rows : List (String × String)) :
    List (String × List (List String)) :=
  (firstSeen (rows.map (·.1))).map (fun st => (st, topLayoutsFor rows st))

/-! ### Keyword classifier (`scraper_ml.classify_with_confidence`) -/

/-- Fuel-bounded scan for Python `str.count`: non-overlapping occurrence
count, restarting after each match past the matched pattern.  The fuel is
consumed one char per step, so `s.length` fuel is always enough. -/
def cntFuel (p : List Char) : Nat → List Char → Nat
  | 0, _ => 0
  | _ + 1, [] => 0
  | fuel + 1, c :: rest =>
    if p.isPrefixOf (c :: rest) then 1 + cntFuel p fuel ((c :: rest).drop p.length)
    else cntFuel p fuel rest

/-- Python `text.count(keyword)`: non-overlapping substring occurrences;
an empty pattern counts `len(text) + 1` as in Python. -/
def pyCount (text pat : String) : Nat :=
  if pat = "" then text.length + 1 else cntFuel pat.data text.data.length text.data

/-- A `{label, confidence}` result of the keyword classifier. -/
structure LabelConf where
  label : String
  confidence : ℚ
deriving DecidableEq, Repr

/-- The `scores` dict of `classify_with_confidence`: per-category sums of
keyword occurrence counts, in the keyword table's order. -/
def kwScores (text : String) (dict : List (String × List String)) :
    List (String × Nat) :=
  dict.map (fun p => (p.1, (p.2.map (fun kw => pyCount text kw)).sum))

/-- Python `sum(scores.values()) or 1`: the division total, `1` substituted when
every score is zero. -/
def kwTotal (text : String) (dict : List (String × List String)) : ℚ :=
  let t := ((kwScores text dict).map (·.2)).sum
  if t = 0 then 1 else (t : ℚ)

/-- Embedding of `LightweightMLScraper.classify_with_confidence`: best-scoring
category with `confidence = score/total` capped at `1.0`, falling back to
`{'other', 0.5}` when the confidence is below `0.2`; `none` models the
`ValueError` of `max()` over an empty keyword table. -/
def classifyWithConfidence (text : String) (dict : List (String × List String)) :
    Option LabelConf :=
  match maxByValue (kwScores text dict) with
  | none => none
  | some (best, bestScore) =>
    let conf := (bestScore : ℚ) / kwTotal text dict
    if conf < 1/5 then some { label := "other", confidence := 1/2 }
    else some { label := best, confidence := min conf 1 }

/-! ### Corpus Aggregator: variant inference (`prepare_training_data.infer_variant`) -/

/-- A raw component observation as scraped: its type plus the optional
attributes `infer_variant` reads (`component.get(...)`, with a missing
boolean key falsy and a missing `num_items` defaulting to 3). -/
structure Component where
  type : String
  hasImage : Bool
  hasCta : Bool
  numItems : Option Int
  hasLinks : Bool
deriving DecidableEq, Repr

/-- Embedding of `SklearnDataPreparator.infer_variant`. -/
def inferVariant (c : Component) (style : String) : String :=
  if c.type = "navbar" then
    if style = "modern_gradient" then "transparent" else "solid"
  else if c.type = "hero" then
    if c.hasImage then "split_screen_with_image"
    else if c.hasCta then "centered_cta"
    else "minimal_text"
  else if c.type = "features" then
    if c.numItems.getD 3 ≥ 4 then "grid_4col" else "grid_3col"
  else if c.type = "footer" then
    if c.hasLinks then "detailed" else "minimal"
  else "default"

/-! ### Component / Page Renderer (`generator_with_ml.MLWebsiteGenerator`) -/

/-- A primary/secondary color pair. -/
structure Colors where
  primary : String
  secondary : String
deriving DecidableEq, Repr

/-- Embedding of `MLWebsiteGenerator.get_colors_for_style`: style → color scheme with
a fixed default pair for unknown styles. -/
def getColorsForStyle (style : String) : Colors :=
  if style = "modern_gradient" then { primary := "#667eea", secondary := "#764ba2" }
  else if style = "minimal_clean" then { primary := "#2d3748", secondary := "#4a5568" }
  else if style = "bold_colorful" then { primary := "#f56565", secondary := "#ed8936" }
  else if style = "dark_mode" then { primary := "#1a202c", secondary := "#2d3748" }
  else if style = "glassmorphism" then { primary := "#667eea", secondary := "#764ba2" }
  else { primary := "#667eea", secondary := "#764ba2" }

/-- Embedding of `MLWebsiteGenerator.generate_navbar`. -/
def generateNavbar (variant : String) (dsl : WebsiteDSL) (description : String) : String :=
  let colors := getColorsForStyle dsl.style
  let bg := if variant = "transparent" then "rgba(255,255,255,0.9)" else "#fff"
  let styleAttr := if variant = "transparent" then "backdrop-filter: blur(10px);" else ""
  "\n<nav style=\"background:" ++ bg ++
  ";padding:20px 40px;box-shadow:0 2px 10px rgba(0,0,0,0.1);display:flex;justify-content:space-between;align-items:center;"
  ++ styleAttr ++ "\">\n    <div style=\"font-size:1.5rem;font-weight:bold;color:" ++
  colors.primary ++ "\">Brand</div>\n    <div style=\"display:flex;gap:30px\">\n        <a href=\"#home\" style=\"color:#333;text-decoration:none\">Home</a>\n        <a href=\"#features\" style=\"color:#333;text-decoration:none\">Features</a>\n        <a href=\"#about\" style=\"color:#333;text-decoration:none\">About</a>\n        <a href=\"#contact\" style=\"color:#333;text-decoration:none\">Contact</a>\n    </div>\n</nav>"

/-- Python `description.split()`: whitespace-separated words, empties
dropped. -/
def pyWords (s : String) : List String :=
  (s.split (fun c => c.isWhitespace)).filter (fun w => w ≠ "")

/-- One pass of Python `str.title()`: an alphabetic character is
uppercased after a non-alphabetic boundary and lowercased otherwise. -/
def pyTitleAux : Bool → List Char → List Char
  | _, [] => []
  | prevAlpha, c :: rest =>
    if c.isAlpha then
      (if prevAlpha then c.toLower else c.toUpper) :: pyTitleAux true rest
    else c :: pyTitleAux false rest

/-- Python `s.title()`. -/
def pyTitle (s : String) : String := String.mk (pyTitleAux false s.data)

/-- The hero heading of `generate_hero`:
`' '.join(description.split()[:5]).title()`. -/
def heroTitle (description : String) : String :=
  pyTitle (String.intercalate " " ((pyWords description).take 5))

/-- Embedding of `MLWebsiteGenerator.generate_hero`: split-screen variant when asked,
the centered layout for every other variant; the heading is the
title-cased first five words and the raw description is embedded
verbatim. -/
def generateHero (variant : String) (dsl : WebsiteDSL) (description : String) : String :=
  let colors := getColorsForStyle dsl.style
  let title := heroTitle description
  if variant = "split_screen_with_image" then
    "\n<section style=\"display:flex;min-height:600px;align-items:center;padding:80px 40px;background:linear-gradient(135deg,"
    ++ colors.primary ++ "," ++ colors.secondary ++
    ")\">\n    <div style=\"flex:1;color:#fff\">\n        <h1 style=\"font-size:3rem;margin-bottom:20px\">"
    ++ title ++
    "</h1>\n        <p style=\"font-size:1.25rem;margin-bottom:30px\">" ++ description ++
    "</p>\n        <button style=\"background:#fff;color:" ++ colors.primary ++
    ";padding:15px 40px;border:none;border-radius:50px;font-size:1.1rem;font-weight:600;cursor:pointer\">Get Started</button>\n    </div>\n    <div style=\"flex:1;display:flex;justify-content:center\">\n        <div style=\"width:400px;height:400px;background:rgba(255,255,255,0.2);border-radius:20px;backdrop-filter:blur(10px)\"></div>\n    </div>\n</section>"
  else
    "\n<section style=\"background:linear-gradient(135deg," ++ colors.primary ++ "," ++
    colors.secondary ++
    ");color:#fff;padding:100px 20px;text-align:center;min-height:600px;display:flex;flex-direction:column;justify-content:center\">\n    <h1 style=\"font-size:3rem;margin-bottom:20px\">"
    ++ title ++
    "</h1>\n    <p style=\"font-size:1.25rem;margin-bottom:30px;max-width:600px;margin-left:auto;margin-right:auto\">"
    ++ description ++
    "</p>\n    <div>\n        <button style=\"background:#fff;color:" ++ colors.primary ++
    ";padding:15px 40px;border:none;border-radius:50px;font-size:1.1rem;font-weight:600;cursor:pointer\">Get Started</button>\n    </div>\n</section>"

/-- One default feature card of `generate_features`. -/
structure Feat where
  icon : String
  title : String
  blurb : String
deriving DecidableEq, Repr

/-- The per-feature card fragment inside `generate_features`. -/
def featureCard (f : Feat) : String :=
  "<div style=\"background:#fff;padding:30px;border-radius:10px;box-shadow:0 4px 15px rgba(0,0,0,0.1);text-align:center\">\n                <div style=\"font-size:3rem;margin-bottom:15px\">"
  ++ f.icon ++
  "</div>\n                <h3 style=\"font-size:1.5rem;margin-bottom:10px\">" ++ f.title ++
  "</h3>\n                <p style=\"color:#718096\">" ++ f.blurb ++
  "</p>\n            </div>"

/-- Embedding of `MLWebsiteGenerator.generate_features`: three default cards, a fourth
appended for the `grid_4col` variant. -/
def generateFeatures (variant : String) (dsl : WebsiteDSL) (description : String) : String :=
  let colors := getColorsForStyle dsl.style
  let base : List Feat :=
    [{ icon := "⚡", title := "Fast", blurb := "Lightning fast performance" },
     { icon := "🎨", title := "Beautiful", blurb := "Stunning designs" },
     { icon := "📱", title := "Responsive", blurb := "Works everywhere" }]
  let feats := if variant = "grid_4col" then
      base ++ [{ icon := "🔒", title := "Secure", blurb := "Bank-level security" }]
    else base
  let gridCols := if variant = "grid_4col" then "repeat(4,1fr)" else "repeat(3,1fr)"
  let featuresHtml := String.join (feats.map featureCard)
  "\n<section style=\"padding:80px 20px;background:#f7fafc\">\n    <h2 style=\"text-align:center;font-size:2.5rem;margin-bottom:50px\">Features</h2>\n    <div style=\"display:grid;grid-template-columns:"
  ++ gridCols ++ ";gap:30px;max-width:1200px;margin:0 auto\">\n        " ++ featuresHtml ++
  "\n    </div>\n</section>"

/-- Embedding of `MLWebsiteGenerator.generate_pricing` (static fragment). -/
def generatePricing (variant : String) (dsl : WebsiteDSL) (description : String) : String :=
  "\n<section style=\"padding:80px 20px;background:#fff\">\n    <h2 style=\"text-align:center;font-size:2.5rem;margin-bottom:50px\">Pricing</h2>\n    <div style=\"display:grid;grid-template-columns:repeat(3,1fr);gap:30px;max-width:1000px;margin:0 auto\">\n        <div style=\"border:2px solid #e2e8f0;padding:40px;border-radius:10px;text-align:center\">\n            <h3 style=\"font-size:1.5rem;margin-bottom:10px\">Starter</h3>\n            <p style=\"font-size:3rem;font-weight:bold;margin:20px 0\">$9</p>\n            <button style=\"background:#667eea;color:#fff;padding:12px 30px;border:none;border-radius:8px;cursor:pointer;width:100%\">Choose Plan</button>\n        </div>\n        <div style=\"border:2px solid #667eea;padding:40px;border-radius:10px;text-align:center;box-shadow:0 10px 30px rgba(0,0,0,0.1)\">\n            <h3 style=\"font-size:1.5rem;margin-bottom:10px\">Pro</h3>\n            <p style=\"font-size:3rem;font-weight:bold;margin:20px 0\">$29</p>\n            <button style=\"background:#667eea;color:#fff;padding:12px 30px;border:none;border-radius:8px;cursor:pointer;width:100%\">Choose Plan</button>\n        </div>\n        <div style=\"border:2px solid #e2e8f0;padding:40px;border-radius:10px;text-align:center\">\n            <h3 style=\"font-size:1.5rem;margin-bottom:10px\">Enterprise</h3>\n            <p style=\"font-size:3rem;font-weight:bold;margin:20px 0\">$99</p>\n            <button style=\"background:#667eea;color:#fff;padding:12px 30px;border:none;border-radius:8px;cursor:pointer;width:100%\">Choose Plan</button>\n        </div>\n    </div>\n</section>"

/-- Embedding of `MLWebsiteGenerator.generate_testimonials` (static fragment). -/
def generateTestimonials (variant : String) (dsl : WebsiteDSL) (description : String) : String :=
  "\n<section style=\"padding:80px 20px;background:#f7fafc\">\n    <h2 style=\"text-align:center;font-size:2.5rem;margin-bottom:50px\">What People Say</h2>\n    <div style=\"display:grid;grid-template-columns:repeat(2,1fr);gap:30px;max-width:1000px;margin:0 auto\">\n        <div style=\"background:#fff;padding:30px;border-radius:10px;box-shadow:0 4px 15px rgba(0,0,0,0.1)\">\n            <p style=\"font-style:italic;margin-bottom:20px\">\"This product changed my life!\"</p>\n            <p style=\"font-weight:bold\">- Happy Customer</p>\n        </div>\n        <div style=\"background:#fff;padding:30px;border-radius:10px;box-shadow:0 4px 15px rgba(0,0,0,0.1)\">\n            <p style=\"font-style:italic;margin-bottom:20px\">\"Best decision we ever made.\"</p>\n            <p style=\"font-weight:bold\">- Satisfied Client</p>\n        </div>\n    </div>\n</section>"

/-- Embedding of `MLWebsiteGenerator.generate_contact` (static fragment). -/
def generateContact (variant : String) (dsl : WebsiteDSL) (description : String) : String :=
  "\n<section style=\"padding:80px 20px;background:#fff\">\n    <h2 style=\"text-align:center;font-size:2.5rem;margin-bottom:50px\">Get In Touch</h2>\n    <div style=\"max-width:600px;margin:0 auto;display:flex;flex-direction:column;gap:20px\">\n        <input type=\"text\" placeholder=\"Name\" style=\"padding:15px;border:2px solid #e2e8f0;border-radius:8px;font-size:1rem\">\n        <input type=\"email\" placeholder=\"Email\" style=\"padding:15px;border:2px solid #e2e8f0;border-radius:8px;font-size:1rem\">\n        <textarea placeholder=\"Message\" rows=\"5\" style=\"padding:15px;border:2px solid #e2e8f0;border-radius:8px;font-size:1rem;resize:vertical\"></textarea>\n        <button onclick=\"alert(\x27Message sent!\x27)\" style=\"background:#667eea;color:#fff;padding:15px;border:none;border-radius:8px;font-size:1.1rem;font-weight:600;cursor:pointer\">Send Message</button>\n    </div>\n</section>"

/-- Embedding of `MLWebsiteGenerator.generate_footer`: detailed three-column footer
for the `detailed` variant, minimal footer otherwise. -/
def generateFooter (variant : String) (dsl : WebsiteDSL) (description : String) : String :=
  if variant = "detailed" then
    "\n<footer style=\"background:#2d3748;color:#fff;padding:60px 40px\">\n    <div style=\"display:grid;grid-template-columns:repeat(3,1fr);gap:40px;max-width:1200px;margin:0 auto 40px\">\n        <div>\n            <h4 style=\"margin-bottom:20px\">Company</h4>\n            <div style=\"display:flex;flex-direction:column;gap:10px\">\n                <a href=\"#\" style=\"color:#a0aec0;text-decoration:none\">About</a>\n                <a href=\"#\" style=\"color:#a0aec0;text-decoration:none\">Careers</a>\n                <a href=\"#\" style=\"color:#a0aec0;text-decoration:none\">Blog</a>\n            </div>\n        </div>\n        <div>\n            <h4 style=\"margin-bottom:20px\">Product</h4>\n            <div style=\"display:flex;flex-direction:column;gap:10px\">\n                <a href=\"#\" style=\"color:#a0aec0;text-decoration:none\">Features</a>\n                <a href=\"#\" style=\"color:#a0aec0;text-decoration:none\">Pricing</a>\n                <a href=\"#\" style=\"color:#a0aec0;text-decoration:none\">Security</a>\n            </div>\n        </div>\n        <div>\n            <h4 style=\"margin-bottom:20px\">Legal</h4>\n            <div style=\"display:flex;flex-direction:column;gap:10px\">\n                <a href=\"#\" style=\"color:#a0aec0;text-decoration:none\">Privacy</a>\n                <a href=\"#\" style=\"color:#a0aec0;text-decoration:none\">Terms</a>\n                <a href=\"#\" style=\"color:#a0aec0;text-decoration:none\">Contact</a>\n            </div>\n        </div>\n    </div>\n    <div style=\"text-align:center;padding-top:40px;border-top:1px solid #4a5568\">\n        <p>© 2024 Company. All rights reserved.</p>\n    </div>\n</footer>"
  else
    "\n<footer style=\"background:#2d3748;color:#fff;padding:40px 20px;text-align:center\">\n    <p style=\"margin-bottom:10px\">© 2024 Company. All rights reserved.</p>\n    <div style=\"display:flex;gap:20px;justify-content:center;margin-top:20px\">\n        <a href=\"#\" style=\"color:#a0aec0;text-decoration:none\">Privacy</a>\n        <a href=\"#\" style=\"color:#a0aec0;text-decoration:none\">Terms</a>\n        <a href=\"#\" style=\"color:#a0aec0;text-decoration:none\">Contact</a>\n    </div>\n</footer>"

/-- The `self.components` registry of `MLWebsiteGenerator.__init__`:
section kind → rendering function; `none` for unregistered kinds. -/
def componentFor (kind : String) : Option (String → WebsiteDSL → String → String) :=
  if kind = "navbar" then some generateNavbar
  else if kind = "hero" then some generateHero
  else if kind = "features" then some generateFeatures
  else if kind = "footer" then some generateFooter
  else if kind = "pricing" then some generatePricing
  else if kind = "testimonials" then some generateTestimonials
  else if kind = "contact" then some generateContact
  else none

/-- The `sections_html` loop of `dsl_to_html`: fragments accumulated in
section order, sections of unregistered kinds skipped. -/
def sectionsHtml (dsl : WebsiteDSL) (description : String) : List String :=
  dsl.sections.foldl (fun acc s =>
    match componentFor s.kind with
    | some f => acc ++ [f s.variant dsl description]
    | none => acc) []

/-- Python `'\n'.join(l)` (`chr(10).join`). -/
def joinWithNl : List String → String
  | [] => ""
  | [x] => x
  | x :: y :: rest => x ++ "\n" ++ joinWithNl (y :: rest)

/-- The document shell of `dsl_to_html` up to and including the line
break after `<body>`. -/
def htmlShellPre (dsl : WebsiteDSL) : String :=
  "<!DOCTYPE html>\n<html lang=\"en\">\n<head>\n    <meta charset=\"UTF-8\">\n    <meta name=\"viewport\" content=\"width=device-width, initial-scale=1.0\">\n    <title>Generated Website - "
  ++ dsl.siteType ++
  "</title>\n    <style>\n        * \x7b margin: 0; padding: 0; box-sizing: border-box; \x7d\n        body \x7b font-family: system-ui, -apple-system, sans-serif; line-height: 1.6; \x7d\n        button \x7b transition: transform 0.2s, box-shadow 0.2s; \x7d\n        button:hover \x7b transform: translateY(-2px); box-shadow: 0 6px 20px rgba(0,0,0,0.3); \x7d\n    </style>\n</head>\n<body>\n"

/-- The closing part of the document shell. -/
def htmlShellPost : String := "\n</body>\n</html>"

/-- Embedding of `MLWebsiteGenerator.dsl_to_html`: fragments of the registered
sections joined by a newline inside the fixed document shell. -/
def dslToHtml (dsl : WebsiteDSL) (description : String) : String :=
  htmlShellPre dsl ++ joinWithNl (sectionsHtml dsl description) ++ htmlShellPost

/-- A three-section DSL for the rendering scenarios: a registered hero,
a section of the unregistered kind `"gallery"`, and a registered
footer. -/
def galleryDsl : WebsiteDSL :=
  ⟨"portfolio", "minimal_clean", 1/2,
    [⟨"hero", 0, "centered_cta"⟩, ⟨"gallery", 1, "default"⟩, ⟨"footer", 2, "minimal"⟩]⟩

/-! ### Helper lemmas -/

lemma foldl_max_mem (xs : List (String × Nat)) (x : String × Nat) :
    xs.foldl (fun best p => if p.2 > best.2 then p else best) x ∈ x :: xs := by
  induction xs generalizing x with
  | nil => simp
  | cons y ys ih =>
    have h := ih (if y.2 > x.2 then y else x)
    simp only [List.foldl_cons]
    rcases List.mem_cons.mp h with h1 | h1
    · rw [h1]; split <;> simp
    · simp [h1]

lemma maxByValue_mem {l : List (String × Nat)} {p : String × Nat}
    (h : maxByValue l = some p) : p ∈ l := by
  cases l with
  | nil => simp [maxByValue] at h
  | cons x xs =>
    simp only [maxByValue, Option.some.injEq] at h
    exact h ▸ foldl_max_mem xs x

lemma snd_le_sum {l : List (String × Nat)} {p : String × Nat} (h : p ∈ l) :
    p.2 ≤ (l.map (·.2)).sum :=
  List.single_le_sum (fun _ _ => Nat.zero_le _) _ (List.mem_map_of_mem _ h)

lemma updateAssoc_ne_nil (l : List (String × Nat)) (k : String) (v : Nat) :
    updateAssoc l k v ≠ [] := by
  cases l with
  | nil => simp [updateAssoc]
  | cons q rest => simp only [updateAssoc]; split <;> simp

lemma foldl_updateAssoc_ne_nil :
    ∀ (vals : List String) (acc : List (String × Nat)), acc ≠ [] →
      vals.foldl (fun a v => updateAssoc a v 1) acc ≠ [] := by
  intro vals
  induction vals with
  | nil => intro acc h; simpa using h
  | cons v rest ih =>
    intro acc _
    simp only [List.foldl_cons]
    exact ih _ (updateAssoc_ne_nil acc v 1)

lemma splitCommaAux_ne_nil : ∀ l : List Char, splitCommaAux l ≠ [] := by
  intro l
  cases l with
  | nil => simp [splitCommaAux]
  | cons c rest =>
    simp only [splitCommaAux]
    rcases splitCommaAux rest with _ | ⟨w, ws⟩
    · simp
    · simp only []
      split <;> simp

lemma pySplitComma_ne_nil (s : String) : pySplitComma s ≠ [] := by
  simpa [pySplitComma] using splitCommaAux_ne_nil s.data

lemma insertDesc_ne_nil (p : String × Nat) (l : List (String × Nat)) :
    insertDesc p l ≠ [] := by
  cases l with
  | nil => simp [insertDesc]
  | cons q rest => simp only [insertDesc]; split <;> simp

lemma sortDesc_ne_nil {l : List (String × Nat)} (h : l ≠ []) : sortDesc l ≠ [] := by
  cases l with
  | nil => exact absurd rfl h
  | cons x xs => exact insertDesc_ne_nil x (xs.foldr insertDesc [])

lemma mem_foldl_firstSeen :
    ∀ (l acc : List String) (x : String),
      x ∈ l.foldl (fun acc y => if acc.contains y then acc else acc ++ [y]) acc →
      x ∈ acc ∨ x ∈ l := by
  intro l
  induction l with
  | nil => intro acc x h; exact Or.inl (by simpa using h)
  | cons y ys ih =>
    intro acc x h
    simp only [List.foldl_cons] at h
    rcases ih _ x h with h1 | h1
    · by_cases hy : acc.contains y
      · rw [if_pos hy] at h1; exact Or.inl h1
      · rw [if_neg hy] at h1
        rcases List.mem_append.mp h1 with h2 | h2
        · exact Or.inl h2
        · simp at h2; simp [h2]
    · simp [h1]

lemma mem_firstSeen {l : List String} {x : String} (h : x ∈ firstSeen l) : x ∈ l := by
  rcases mem_foldl_firstSeen l [] x h with h1 | h1
  · simp at h1
  · exact h1

lemma lookup_map_keys :
    ∀ (keys : List String) (g : String → List (List String)) (st : String)
      (ts : List (List String)),
      (keys.map (fun k => (k, g k))).lookup st = some ts → st ∈ keys ∧ ts = g st := by
  intro keys g st ts
  induction keys with
  | nil => intro h; simp at h
  | cons k rest ih =>
    intro h
    simp only [List.map_cons, List.lookup] at h
    by_cases hk : st = k
    · rw [beq_iff_eq.mpr hk] at h
      simp only [Option.some.injEq] at h
      exact ⟨by simp [hk], by rw [hk, ← h]⟩
    · rw [show (st == k) = false from beq_eq_false_iff_ne.mpr hk] at h
      rcases ih h with ⟨h1, h2⟩
      exact ⟨List.mem_cons_of_mem _ h1, h2⟩

lemma layoutCountsFor_ne_nil {rows : List (String × String)} {st : String}
    (h : st ∈ firstSeen (rows.map (·.1))) : layoutCountsFor rows st ≠ [] := by
  have hmem : st ∈ rows.map (·.1) := mem_firstSeen h
  rcases List.mem_map.mp hmem with ⟨r, hr, hst⟩
  have hfilter : r ∈ rows.filter (fun r => r.1 = st) :=
    List.mem_filter.mpr ⟨hr, by simp [hst]⟩
  unfold layoutCountsFor
  cases hv : (rows.filter (fun r => r.1 = st)).map (·.2) with
  | nil =>
    have hmem2 := List.mem_map_of_mem (·.2) hfilter
    rw [hv] at hmem2
    simp at hmem2
  | cons a rest =>
    simp only [List.foldl_cons]
    exact foldl_updateAssoc_ne_nil rest _ (updateAssoc_ne_nil [] a 1)

lemma topLayoutsFor_ne_nil {rows : List (String × String)} {st : String}
    (h : st ∈ firstSeen (rows.map (·.1))) : topLayoutsFor rows st ≠ [] := by
  unfold topLayoutsFor
  have h1 := sortDesc_ne_nil (layoutCountsFor_ne_nil h)
  cases hs : sortDesc (layoutCountsFor rows st) with
  | nil => exact absurd hs h1
  | cons a rest => simp

lemma mem_topLayoutsFor_ne_nil {rows : List (String × String)} {st : String}
    {l : List String} (h : l ∈ topLayoutsFor rows st) : l ≠ [] := by
  rcases List.mem_map.mp h with ⟨p, _, hp⟩
  exact hp ▸ pySplitComma_ne_nil p.1

/-! ### Claim theorems -/

/-- C1 (counterexample): on an empty Frequency Store `classify_site` does
not return the claimed all-default result — it raises (`max()` over the
empty `scores` dict), modelled here by `none`. -/
theorem classify_site_empty_store_raises :
    classifySite []
      { hasNavbar := false, hasHero := false, hasFeatures := false,
        hasFooter := false, numComponents := 0, titleLength := 0 } = none := rfl

/-- C1 (amended): whenever `classify_site` returns a result its confidence
lies in [0,1]; but on an empty Frequency Store, and likewise when the sum
of all per-site_type similarity totals is 0, it raises (ValueError /
ZeroDivisionError, modelled by `none`) instead of returning the default
result. -/
theorem classify_site_confidence_in_unit_interval :
    (∀ (data : List Exemplar) (f : Features) (r : ClassResult),
       classifySite data f = some r → 0 ≤ r.confidence ∧ r.confidence ≤ 1) ∧
    (∀ f : Features, classifySite [] f = none) ∧
    (∀ (data : List Exemplar) (f : Features),
       totalScore data f = 0 → classifySite data f = none) := by
  refine ⟨?_, ?_, ?_⟩
  · intro data f r h
    unfold classifySite at h
    cases hm : maxByValue (scoresOf data f) with
    | none => rw [hm] at h; exact absurd h (by simp)
    | some p =>
      obtain ⟨best, bestScore⟩ := p
      rw [hm] at h
      simp only at h
      by_cases ht : totalScore data f = 0
      · rw [if_pos ht] at h; exact absurd h (by simp)
      · rw [if_neg ht] at h
        have hr := (Option.some.injEq _ _).mp h
        have hle : bestScore ≤ totalScore data f :=
          snd_le_sum (maxByValue_mem hm)
        have hpos : (0 : ℚ) < ((totalScore data f : Nat) : ℚ) := by
          exact_mod_cast Nat.pos_of_ne_zero ht
        constructor
        · rw [← hr]
          exact div_nonneg (Nat.cast_nonneg _) (Nat.cast_nonneg _)
        · rw [← hr]
          exact (div_le_one hpos).mpr (by exact_mod_cast hle)
  · intro f; rfl
  · intro data f h
    unfold classifySite
    cases hm : maxByValue (scoresOf data f) with
    | none => rfl
    | some p =>
      obtain ⟨best, bestScore⟩ := p
      simp only [h, if_pos]

/-- C1 (witness): the amended theorem applied to a one-exemplar store. -/
theorem classify_site_confidence_in_unit_interval_witness :
    (0 : ℚ) ≤ (ClassResult.mk "ecommerce" "dark_mode" 1).confidence ∧
      (ClassResult.mk "ecommerce" "dark_mode" 1).confidence ≤ 1 :=
  classify_site_confidence_in_unit_interval.1
    [{ siteType := "ecommerce", style := "dark_mode", hasNavbar := true,
       hasHero := false, hasFeatures := false, hasFooter := true }]
    { hasNavbar := true, hasHero := false, hasFeatures := false, hasFooter := true,
      numComponents := 0, titleLength := 0 }
    (ClassResult.mk "ecommerce" "dark_mode" 1)
    (by simp [classifySite, scoresOf, updateAssoc, simScore, maxByValue, totalScore,
          bestStyleFor, styleCounts])

/-- C9: the frequency classifier reads only the four boolean section
flags of the FeatureRecord: two records agreeing on them classify
identically against any store, whatever their numeric attributes. -/
theorem classify_site_depends_only_on_flags :
    ∀ (data : List Exemplar) (f g : Features),
      f.hasNavbar = g.hasNavbar → f.hasHero = g.hasHero →
      f.hasFeatures = g.hasFeatures → f.hasFooter = g.hasFooter →
      classifySite data f = classifySite data g := by
  intro data f g h1 h2 h3 h4
  have hs : ∀ e : Exemplar, simScore f e = simScore g e := by
    intro e; simp [simScore, h1, h2, h3, h4]
  have hscores : scoresOf data f = scoresOf data g := by
    unfold scoresOf
    exact List.foldl_ext _ _ _ (fun acc e _ => by rw [hs])
  unfold classifySite totalScore
  rw [hscores]

/-- C9 (witness): two records sharing flags but with different word/size
counts classify identically. -/
theorem classify_site_depends_only_on_flags_witness :
    classifySite
      [{ siteType := "ecommerce", style := "dark_mode", hasNavbar := true,
         hasHero := false, hasFeatures := false, hasFooter := true }]
      { hasNavbar := true, hasHero := false, hasFeatures := false, hasFooter := true,
        numComponents := 0, titleLength := 0 } =
    classifySite
      [{ siteType := "ecommerce", style := "dark_mode", hasNavbar := true,
         hasHero := false, hasFeatures := false, hasFooter := true }]
      { hasNavbar := true, hasHero := false, hasFeatures := false, hasFooter := true,
        numComponents := 99, titleLength := 7 } :=
  classify_site_depends_only_on_flags _ _ _ rfl rfl rfl rfl

/-- C2: when the winning keyword score stays below a fifth of the total,
`classify_with_confidence` returns label `"other"` with confidence
exactly 1/2 (and it returns a result, never an error, whenever the
keyword table is non-empty); the classifier's configured default style,
used when no exemplar shares the winning site type, is
`"minimal_clean"`. -/
theorem keyword_fallback_to_other :
    (∀ (text : String) (dict : List (String × List String)), dict ≠ [] →
       (classifyWithConfidence text dict).isSome) ∧
    (∀ (text : String) (dict : List (String × List String)) (p : String × Nat),
       maxByValue (kwScores text dict) = some p →
       (p.2 : ℚ) / kwTotal text dict < 1/5 →
       classifyWithConfidence text dict = some { label := "other", confidence := 1/2 }) ∧
    (∀ (data : List Exemplar) (best : String),
       (∀ e ∈ data, e.siteType ≠ best) → bestStyleFor data best = "minimal_clean") := by
  refine ⟨?_, ?_, ?_⟩
  · intro text dict h
    cases dict with
    | nil => exact absurd rfl h
    | cons d ds =>
      simp only [classifyWithConfidence, kwScores, List.map_cons, maxByValue]
      split <;> simp
  · intro text dict p hm hlt
    unfold classifyWithConfidence
    rw [hm]
    simp only [if_pos hlt]
  · intro data best h
    have hsc : styleCounts data best = [] := by
      unfold styleCounts
      have : ∀ (l : List Exemplar) (acc : List (String × Nat)),
          (∀ e ∈ l, e.siteType ≠ best) →
          l.foldl (fun acc e => if e.siteType = best then updateAssoc acc e.style 1 else acc)
            acc = acc := by
        intro l
        induction l with
        | nil => intro acc _; rfl
        | cons e rest ih =>
          intro acc hall
          simp only [List.foldl_cons, if_neg (hall e (List.mem_cons_self e rest))]
          exact ih acc (fun x hx => hall x (List.mem_cons_of_mem e hx))
      exact this data [] h
    unfold bestStyleFor
    rw [hsc]
    rfl

/-- C2 (witness): a text with zero keyword hits falls back to
`("other", 0.5)`, and the style default applies on an empty store. -/
theorem keyword_fallback_to_other_witness :
    classifyWithConfidence "xyz" [("saas_landing", ["saas"])] =
      some { label := "other", confidence := 1/2 } ∧
    bestStyleFor [] "saas_landing" = "minimal_clean" :=
  ⟨keyword_fallback_to_other.2.1 "xyz" [("saas_landing", ["saas"])]
      ("saas_landing", 0) (by decide) (by norm_num [kwTotal, kwScores]),
   keyword_fallback_to_other.2.2 [] "saas_landing" (by simp)⟩

/-- C3: the Layout Selector returns the fixed default sequence
`[navbar, hero, features, footer]` for an absent site_type, the stored
template at index 0 for a present one, and on any layout-template table
built by the corpus aggregator (`train_layout_generator`) its result is a
non-empty section sequence for every site_type, known or unknown. -/
theorem generate_layout_default_and_nonempty :
    (∀ (templates : List (String × List (List String))) (siteType style : String),
       templates.lookup siteType = none →
       generateLayout templates siteType style =
         some ["navbar", "hero", "features", "footer"]) ∧
    (∀ (templates : List (String × List (List String)))
       (siteType style : String) (ts : List (List String)),
       templates.lookup siteType = some ts →
       generateLayout templates siteType style = ts.head?) ∧
    (∀ (rows : List (String × String)) (siteType style : String),
       ∃ l, generateLayout (buildLayoutTemplates rows) siteType style = some l ∧ l ≠ []) := by
  refine ⟨?_, ?_, ?_⟩
  · intro templates siteType style h
    unfold generateLayout
    rw [h]
  · intro templates siteType style ts h
    unfold generateLayout
    rw [h]
  · intro rows siteType style
    cases hl : (buildLayoutTemplates rows).lookup siteType with
    | none =>
      refine ⟨["navbar", "hero", "features", "footer"], ?_, by simp⟩
      unfold generateLayout
      rw [hl]
    | some ts =>
      have hk := lookup_map_keys (firstSeen (rows.map (·.1))) (topLayoutsFor rows)
        siteType ts (by simpa [buildLayoutTemplates] using hl)
      obtain ⟨hmem, hts⟩ := hk
      have hne : topLayoutsFor rows siteType ≠ [] := topLayoutsFor_ne_nil hmem
      cases htop : topLayoutsFor rows siteType with
      | nil => exact absurd htop hne
      | cons a rest =>
        refine ⟨a, ?_, ?_⟩
        · unfold generateLayout
          rw [hl, hts, htop]
          rfl
        · exact mem_topLayoutsFor_ne_nil (htop ▸ List.mem_cons_self a rest)

/-- C3 (witness): the unknown site_type `"art_gallery"` gets exactly the
default sequence; a present site_type gets its index-0 template. -/
theorem generate_layout_default_and_nonempty_witness :
    generateLayout [] "art_gallery" "minimal_clean" =
      some ["navbar", "hero", "features", "footer"] ∧
    generateLayout [("saas_landing", [["navbar", "hero"], ["navbar"]])]
      "saas_landing" "modern_gradient" = some ["navbar", "hero"] :=
  ⟨generate_layout_default_and_nonempty.1 [] "art_gallery" "minimal_clean" rfl,
   generate_layout_default_and_nonempty.2.1
     [("saas_landing", [["navbar", "hero"], ["navbar"]])]
     "saas_landing" "modern_gradient" [["navbar", "hero"], ["navbar"]] rfl⟩

/-- C4: the Variant Selector returns the stored variant on an exact key
hit, the per-kind hard default on a miss, and under the empty VariantRule
table its result is never the empty string. -/
theorem select_variant_defaults :
    (∀ (table : List (String × String)) (siteType style compType v : String),
       table.lookup (variantKey siteType style compType) = some v →
       selectVariant table siteType style compType = v) ∧
    (∀ (table : List (String × String)) (siteType style compType : String),
       table.lookup (variantKey siteType style compType) = none →
       selectVariant table siteType style compType =
         (if compType = "navbar" then "solid"
          else if compType = "hero" then "centered_cta"
          else if compType = "features" then "grid_3col"
          else if compType = "footer" then "minimal"
          else "default")) ∧
    (∀ siteType style compType : String,
       selectVariant [] siteType style compType ≠ "") := by
  refine ⟨?_, ?_, ?_⟩
  · intro table siteType style compType v h
    unfold selectVariant
    rw [h]
  · intro table siteType style compType h
    unfold selectVariant
    rw [h]
  · intro siteType style compType
    unfold selectVariant
    simp only [List.lookup]
    split_ifs <;> simp

/-- C4 (witness): a hit returns the stored variant, misses return the
hard defaults, all non-empty. -/
theorem select_variant_defaults_witness :
    selectVariant [("saas_landing_dark_mode_navbar", "transparent")]
      "saas_landing" "dark_mode" "navbar" = "transparent" ∧
    selectVariant [] "x" "y" "hero" = "centered_cta" ∧
    selectVariant [] "x" "y" "gallery" ≠ "" :=
  ⟨select_variant_defaults.1 _ "saas_landing" "dark_mode" "navbar" "transparent" rfl,
   by simpa using select_variant_defaults.2.1 [] "x" "y" "hero" rfl,
   select_variant_defaults.2.2 "x" "y" "gallery"⟩

/-- C5: every DSL the Assembler produces carries positions equal to each
descriptor's 0-based index, i.e. the contiguous range [0, n-1]. -/
theorem dsl_positions_contiguous :
    ∀ (store : Store) (desc : String) (dsl : WebsiteDSL),
      generateCompleteDsl store desc = some dsl →
      dsl.sections.map (·.position) = List.range dsl.sections.length := by
  intro store desc dsl h
  unfold generateCompleteDsl at h
  cases hc : classifySite store.classifierData (extractFeaturesFromDesc desc) with
  | none => rw [hc] at h; exact absurd h (by simp)
  | some cls =>
    rw [hc] at h
    simp only at h
    cases hl : generateLayout store.layoutTemplates cls.siteType cls.style with
    | none => rw [hl] at h; exact absurd h (by simp)
    | some sections =>
      rw [hl] at h
      have hd := (Option.some.injEq _ _).mp h
      rw [← hd]
      simp only [List.map_map, List.length_map, List.enum_length]
      have : ((fun s : SectionDescriptor => s.position) ∘ fun p : Nat × String =>
          SectionDescriptor.mk p.2 p.1
            (selectVariant store.componentVariants cls.siteType cls.style p.2)) =
          Prod.fst := rfl
      rw [this, List.enum_map_fst]

/-- C5 (witness): the theorem applied to a concrete one-exemplar store
and the description `"shop"`. -/
theorem dsl_positions_contiguous_witness :
    ([{ kind := "navbar", position := 0, variant := "solid" },
      { kind := "hero", position := 1, variant := "centered_cta" },
      { kind := "features", position := 2, variant := "grid_3col" },
      { kind := "footer", position := 3, variant := "minimal" }] :
        List SectionDescriptor).map (·.position) =
      List.range ([{ kind := "navbar", position := 0, variant := "solid" },
        { kind := "hero", position := 1, variant := "centered_cta" },
        { kind := "features", position := 2, variant := "grid_3col" },
        { kind := "footer", position := 3, variant := "minimal" }] :
          List SectionDescriptor).length := by
  have h := dsl_positions_contiguous
    ⟨[⟨"ecommerce", "dark_mode", true, false, false, true⟩], [], []⟩
    "shop"
    ⟨"ecommerce", "dark_mode", 1,
      [⟨"navbar", 0, "solid"⟩, ⟨"hero", 1, "centered_cta"⟩,
       ⟨"features", 2, "grid_3col"⟩, ⟨"footer", 3, "minimal"⟩]⟩
    (by
      have hf : extractFeaturesFromDesc "shop" =
          ⟨true, false, false, true, 0, 0⟩ := by decide
      simp [generateCompleteDsl, hf, classifySite, scoresOf, updateAssoc, simScore,
        maxByValue, totalScore, bestStyleFor, styleCounts, generateLayout,
        selectVariant, variantKey, List.lookup, List.enum, List.enumFrom])
  exact h

/-- C8: `infer_variant` implements the documented deterministic rule for
every component observation; in particular a hero with an image maps to
`"split_screen_with_image"` regardless of its call-to-action flag. -/
theorem infer_variant_rule :
    ∀ (c : Component) (style : String),
      (c.type = "navbar" → inferVariant c style =
        (if style = "modern_gradient" then "transparent" else "solid")) ∧
      (c.type = "hero" → c.hasImage = true →
        inferVariant c style = "split_screen_with_image") ∧
      (c.type = "hero" → c.hasImage = false → c.hasCta = true →
        inferVariant c style = "centered_cta") ∧
      (c.type = "hero" → c.hasImage = false → c.hasCta = false →
        inferVariant c style = "minimal_text") ∧
      (c.type = "features" → inferVariant c style =
        (if c.numItems.getD 3 ≥ 4 then "grid_4col" else "grid_3col")) ∧
      (c.type = "footer" → inferVariant c style =
        (if c.hasLinks then "detailed" else "minimal")) ∧
      (c.type ∉ (["navbar", "hero", "features", "footer"] : List String) →
        inferVariant c style = "default") := by
  intro c style
  refine ⟨?_, ?_, ?_, ?_, ?_, ?_, ?_⟩
  · intro h; simp [inferVariant, h]
  · intro h hi; simp [inferVariant, h, hi]
  · intro h hi hc; simp [inferVariant, h, hi, hc]
  · intro h hi hc; simp [inferVariant, h, hi, hc]
  · intro h; simp [inferVariant, h]
  · intro h; simp [inferVariant, h]
  · intro h
    simp only [List.mem_cons, List.mem_singleton, not_or] at h
    obtain ⟨h1, h2, h3, h4⟩ := h
    simp [inferVariant, h1, h2, h3, h4]

/-- C8 (witness): a hero observation with `has_image` and `has_cta` both
set infers the split-screen variant. -/
theorem infer_variant_rule_witness :
    inferVariant
      { type := "hero", hasImage := true, hasCta := true, numItems := none,
        hasLinks := false } "minimal_clean" = "split_screen_with_image" :=
  (infer_variant_rule
    { type := "hero", hasImage := true, hasCta := true, numItems := none,
      hasLinks := false } "minimal_clean").2.1 rfl rfl

/-! ### Rendering lemmas and claims -/

lemma sectionsHtml_eq_filterMap (dsl : WebsiteDSL) (description : String) :
    sectionsHtml dsl description =
      dsl.sections.filterMap
        (fun s => (componentFor s.kind).map (fun f => f s.variant dsl description)) := by
  suffices h : ∀ (l : List SectionDescriptor) (acc : List String),
      l.foldl (fun acc s => match componentFor s.kind with
        | some f => acc ++ [f s.variant dsl description]
        | none => acc) acc
      = acc ++ l.filterMap
          (fun s => (componentFor s.kind).map (fun f => f s.variant dsl description)) by
    simpa [sectionsHtml] using h dsl.sections []
  intro l
  induction l with
  | nil => intro acc; simp
  | cons s rest ih =>
    intro acc
    simp only [List.foldl_cons, List.filterMap_cons]
    cases h : componentFor s.kind with
    | none => simp only [h, Option.map_none']; rw [ih]
    | some f =>
      simp only [h, Option.map_some']
      rw [ih]
      simp

lemma joinWithNl_mem_decomp :
    ∀ (l : List String) (x : String), x ∈ l →
      ∃ a b, joinWithNl l = a ++ (x ++ b) := by
  intro l
  induction l with
  | nil => intro x hx; simp at hx
  | cons y ys ih =>
    intro x hx
    cases ys with
    | nil =>
      simp at hx
      refine ⟨"", "", ?_⟩
      show y = "" ++ (x ++ "")
      simp [hx]
    | cons z zs =>
      rcases List.mem_cons.mp hx with h1 | h1
      · refine ⟨"", "\n" ++ joinWithNl (z :: zs), ?_⟩
        show y ++ "\n" ++ joinWithNl (z :: zs) = "" ++ (x ++ ("\n" ++ joinWithNl (z :: zs)))
        rw [h1]
        simp [String.append_assoc]
      · rcases ih x h1 with ⟨a, b, hab⟩
        refine ⟨y ++ "\n" ++ a, b, ?_⟩
        show y ++ "\n" ++ joinWithNl (z :: zs) = y ++ "\n" ++ a ++ (x ++ b)
        rw [hab]
        simp [String.append_assoc]

lemma append_chain_decomp (s1 p c0 s0 s2 t s3 d s4 p2 s5 : String) :
    ∃ a b c, s1 ++ p ++ c0 ++ s0 ++ s2 ++ t ++ s3 ++ d ++ s4 ++ p2 ++ s5 =
      a ++ (t ++ (b ++ (d ++ c))) :=
  ⟨s1 ++ p ++ c0 ++ s0 ++ s2, s3, s4 ++ p2 ++ s5, by simp [String.append_assoc]⟩

lemma generateHero_decomp (v : String) (dsl : WebsiteDSL) (desc : String) :
    ∃ a b c, generateHero v dsl desc =
      a ++ (heroTitle desc ++ (b ++ (desc ++ c))) := by
  by_cases h : v = "split_screen_with_image"
  · simp only [generateHero, if_pos h]
    exact append_chain_decomp _ _ _ _ _ _ _ _ _ _ _
  · simp only [generateHero, if_neg h]
    exact append_chain_decomp _ _ _ _ _ _ _ _ _ _ _

/-- C6: sections whose kind has no registered renderer are dropped, not
errors: the fragment list is exactly the registered sections' fragments
in original relative order; in particular `galleryDsl` (hero, an
unregistered "gallery" kind, footer) renders to exactly the hero and
footer fragments in that order. -/
theorem dsl_to_html_skips_unregistered :
    (∀ (dsl : WebsiteDSL) (description : String),
       sectionsHtml dsl description =
         dsl.sections.filterMap
           (fun s => (componentFor s.kind).map (fun f => f s.variant dsl description))) ∧
    sectionsHtml galleryDsl "d" =
      [generateHero "centered_cta" galleryDsl "d",
       generateFooter "minimal" galleryDsl "d"] :=
  ⟨sectionsHtml_eq_filterMap, rfl⟩

/-- C7: the Page Renderer is a pure function of the DSL and the source
text: equal inputs render to byte-identical markup. -/
theorem dsl_to_html_deterministic :
    ∀ (dsl₁ dsl₂ : WebsiteDSL) (d₁ d₂ : String),
      dsl₁ = dsl₂ → d₁ = d₂ → dslToHtml dsl₁ d₁ = dslToHtml dsl₂ d₂ := by
  intro dsl₁ dsl₂ d₁ d₂ h1 h2
  rw [h1, h2]

/-- C7 (witness): rendering `galleryDsl` twice with the same text gives
the identical string. -/
theorem dsl_to_html_deterministic_witness :
    dslToHtml galleryDsl "a studio" = dslToHtml galleryDsl "a studio" :=
  dsl_to_html_deterministic galleryDsl galleryDsl "a studio" "a studio" rfl rfl

/-- C10: the hero fragment embeds the raw description verbatim (no
escaping), preceded by the heading `heroTitle` — the title-cased join of
the first five whitespace-separated words — and any DSL containing a
hero section therefore renders to markup containing the description
verbatim. -/
theorem hero_embeds_description_verbatim :
    (∀ (v : String) (dsl : WebsiteDSL) (desc : String),
       ∃ a b c, generateHero v dsl desc =
         a ++ (heroTitle desc ++ (b ++ (desc ++ c)))) ∧
    (∀ (dsl : WebsiteDSL) (desc : String) (s : SectionDescriptor),
       s ∈ dsl.sections → s.kind = "hero" →
       ∃ a b, dslToHtml dsl desc = a ++ (desc ++ b)) := by
  refine ⟨generateHero_decomp, ?_⟩
  intro dsl desc s hs hk
  have hfrag : generateHero s.variant dsl desc ∈ sectionsHtml dsl desc := by
    rw [sectionsHtml_eq_filterMap]
    exact List.mem_filterMap.mpr ⟨s, hs, by rw [hk]; rfl⟩
  rcases joinWithNl_mem_decomp _ _ hfrag with ⟨a1, b1, hjoin⟩
  rcases generateHero_decomp s.variant dsl desc with ⟨a2, b2, c2, hdec⟩
  refine ⟨htmlShellPre dsl ++ a1 ++ a2 ++ heroTitle desc ++ b2,
    c2 ++ b1 ++ htmlShellPost, ?_⟩
  unfold dslToHtml
  rw [hjoin, hdec]
  simp [String.append_assoc]

/-- C10 (witness): rendering `galleryDsl` with a concrete description
yields markup containing that description verbatim. -/
theorem hero_embeds_description_verbatim_witness :
    ∃ a b, dslToHtml galleryDsl "my photo studio <b>" =
      a ++ ("my photo studio <b>" ++ b) :=
  hero_embeds_description_verbatim.2 galleryDsl "my photo studio <b>"
    ⟨"hero", 0, "centered_cta"⟩ (by simp [galleryDsl]) rfl

end WebsiteGen
